import Mathlib

/-!
Verification of the imap-notify client (src/imap-notify.py).

The Python program is shallowly embedded: each Python function becomes a Lean
definition of the same name.  External collaborators are modelled as explicit
inputs:

* a configparser section becomes the record `SectionS` of optional fields
  (string-valued keys as `Option String`; boolean keys, which configparser
  parses for the program via `getboolean`, as `Option Bool`);
* the `password_command` subprocess becomes a function
  `run : String → Int × String` giving return code and captured stdout;
* the network becomes a `ConnEnv` per connection attempt (whether the
  transport open raises an OSError, whether STARTTLS succeeds, whether login
  succeeds), and `select` readability becomes a `Bool` per attempt;
* the retry loop `wait_for_change` is folded over a finite trace of such
  attempt environments, producing the list of observable events (sleeps,
  prints, the select timeout) and a `LoopResult`.

Python exceptions become the `PyExc` inductive; `isOSErrorClass` reflects
which of them Python would catch with `except OSError`.
-/

namespace ImapNotify

/-- Decidable equality on `Except`, for evaluating the model on concrete
inputs. -/
instance {ε α : Type} [DecidableEq ε] [DecidableEq α] :
    DecidableEq (Except ε α) := fun a b =>
  match a, b with
  | .error e₁, .error e₂ =>
    if h : e₁ = e₂ then isTrue (by rw [h]) else isFalse (by simp [h])
  | .ok v₁, .ok v₂ =>
    if h : v₁ = v₂ then isTrue (by rw [h]) else isFalse (by simp [h])
  | .error _, .ok _ => isFalse (by simp)
  | .ok _, .error _ => isFalse (by simp)

/-- Python exception values relevant to the program, tagged by class.
`osError` stands for `OSError` and its subclasses (connection refused, DNS
failure, ...); `imaplibError` for `imaplib.IMAP4.error` (raised on
authentication or protocol rejection), which is NOT an `OSError` subclass;
`imapError` and `configError` are the programs own classes (with
`ConfigError` a subclass of `ImapError`); `nameError` stands for
`UnboundLocalError`/`NameError`. -/
inductive PyExc where
  | osError (msg : String)
  | imaplibError (msg : String)
  | imapError (msg : String)
  | configError (msg : String)
  | nameError (msg : String)
  deriving DecidableEq, Repr

/-- Which exceptions an `except OSError` clause catches: exactly the
`OSError` class.  None of the other modelled classes derives from it. -/
def isOSErrorClass : PyExc → Bool
  | .osError _ => true
  | _ => false

/-- Which exceptions an `except ConfigError` clause catches: only
`ConfigError` itself (`ImapError` is its superclass, not a subclass). -/
def isConfigErrorClass : PyExc → Bool
  | .configError _ => true
  | _ => false

/-- The `Encryption` enum of the source. -/
inductive Encryption where
  | NONE
  | IMAPS
  | STARTTLS
  deriving DecidableEq, Repr

/-- The `Configuration` dataclass of the source. -/
structure Configuration where
  host : String
  port : Int
  username : String
  password : String
  encryption : Encryption
  debug : Bool
  deriving DecidableEq, Repr

/-- A configparser section restricted to the keys the program reads.
String-valued keys are `Option String` (`none` = key absent, matching
`section.get(key, None)`); boolean keys are `Option Bool` (`none` = key
absent, so `getboolean(key, fallback=d)` returns `d`); configparser itself
(file parsing, boolean-literal parsing) is an external collaborator. -/
structure SectionS where
  host : Option String := none
  port : Option String := none
  username : Option String := none
  password : Option String := none
  password_command : Option String := none
  imaps : Option Bool := none
  starttls : Option Bool := none
  debug : Option Bool := none
  deriving DecidableEq, Repr

/-- Python truthiness of an optional string: `None` and the empty string are
falsy, every other string is truthy. -/
def truthy : Option String → Bool
  | none => false
  | some s => !(s == "")

/-- Python `str.rstrip()` whitespace set (the ASCII part used here). -/
def pyIsSpace (c : Char) : Bool :=
  c = ' ' || c = '\t' || c = '\n' || c = '\r' || c = '\x0b' || c = '\x0c'

/-- Python `str.rstrip()`: remove trailing whitespace. -/
def rstrip (s : String) : String :=
  String.mk ((s.data.reverse.dropWhile pyIsSpace).reverse)

/-- Accumulate a nonempty all-digit character list into a number;
`none` on a non-digit or on the empty remainder of a sign-only string. -/
def parseDigitsAux : List Char → Nat → Option Nat
  | [], acc => some acc
  | c :: cs, acc =>
    if c.isDigit then parseDigitsAux cs (acc * 10 + (c.toNat - 48)) else none

/-- Parse a nonempty digit string. -/
def parseDigits : List Char → Option Nat
  | [] => none
  | cs => parseDigitsAux cs 0

/-- Python `int(s)` on a decimal string: optional surrounding whitespace,
optional sign, then digits; `none` when `int` would raise `ValueError`.
(Underscore digit grouping is not modelled; no claim involves it.) -/
def parsePyInt (s : String) : Option Int :=
  let t := ((s.data.dropWhile pyIsSpace).reverse.dropWhile pyIsSpace).reverse
  match t with
  | '-' :: ds => (parseDigits ds).map (fun n => -(n : Int))
  | '+' :: ds => (parseDigits ds).map (fun n => (n : Int))
  | ds => (parseDigits ds).map (fun n => (n : Int))

/-- `get_password` (src lines 41-55).  The subprocess invocation
`subprocess.run(cmd, capture_output=True, shell=True)` is the external
collaborator `run : String → Int × String` returning
`(returncode, stdout decoded as utf-8)`.  The source wraps the command in
single-quote characters inside the error message; those quote characters are
elided here. -/
def get_password (sec : SectionS) (run : String → Int × String) :
    Except PyExc String :=
  let password := sec.password
  let password_cmd := sec.password_command
  if truthy password && truthy password_cmd then
    .error (.configError "password or password_command are mutually exclusive")
  else if truthy password_cmd then
    let cmd := password_cmd.getD ""
    let res := run cmd
    if res.1 ≠ 0 then
      .error (.configError
        ("Password command " ++ cmd ++ " exited with " ++ toString res.1))
    else
      .ok (rstrip res.2)
  else if !(truthy password) then
    .error (.configError "No imap password or password_command set")
  else
    .ok (password.getD "")

/-- `get_encryption` (src lines 58-67). -/
def get_encryption (sec : SectionS) : Except PyExc Encryption :=
  let imaps := sec.imaps.getD false
  let starttls := sec.starttls.getD (!imaps)
  if starttls && imaps then
    .error (.imapError "You cannot enable both starttls and imaps")
  else if imaps then .ok .IMAPS
  else if starttls then .ok .STARTTLS
  else .ok .NONE

/-- `get_port` (src lines 70-78).  When `int(raw_port)` raises `ValueError`,
the handler `raise ImapError(f"Imap port is not a valid: \x7bport\x7d: \x7berr\x7d")`
references the local variable `port`, which was never assigned (the
assignment `port = int(raw_port)` is what raised); evaluating the f-string
therefore raises `UnboundLocalError` before any `ImapError` is constructed.
The model returns that `nameError` in this branch. -/
def get_port (sec : SectionS) (default_port : Int) : Except PyExc Int :=
  let raw_port := sec.port.getD (toString default_port)
  match parsePyInt raw_port with
  | some port =>
    if 1 ≤ port ∧ port < 65535 then
      .ok port
    else
      .error (.imapError ("Imap port is out of range (1-65535): " ++ toString port))
  | none =>
    .error (.nameError "UnboundLocalError: local variable port referenced before assignment")

/-- `read_configuration` (src lines 81-105).  The configparser parse becomes
the input `sec? : Option SectionS` (`none` = no `imap` section in the file).
Evaluation order follows the source: host check, username check,
`get_encryption`, then the `Configuration(...)` keyword arguments left to
right, so `get_port` before `get_password`. -/
def read_configuration (sec? : Option SectionS) (run : String → Int × String) :
    Except PyExc Configuration :=
  match sec? with
  | none => .error (.configError "No imap section found")
  | some imap =>
    if !(truthy imap.host) then .error (.configError "No imap host set")
    else if !(truthy imap.username) then .error (.configError "No imap username set")
    else
      match get_encryption imap with
      | .error e => .error e
      | .ok encryption =>
        match get_port imap (if encryption = Encryption.IMAPS then 993 else 143) with
        | .error e => .error e
        | .ok port =>
          match get_password imap run with
          | .error e => .error e
          | .ok password =>
            .ok { host := imap.host.getD "", port := port,
                  username := imap.username.getD "", password := password,
                  encryption := encryption, debug := imap.debug.getD false }

/-- The result of one connection attempt as seen from the network:
whether opening the transport raises an `OSError` (`openErr = some msg`),
whether a STARTTLS upgrade would succeed, and whether `login` would accept
the credentials. -/
structure ConnEnv where
  openErr : Option String := none
  starttlsOk : Bool := true
  loginOk : Bool := true
  deriving DecidableEq, Repr

/-- An established session handle; `connect` sets `client.debug` from the
configuration. -/
structure Session where
  debugLevel : Nat
  deriving DecidableEq, Repr

/-- `connect` (src lines 108-121).  Opening the transport
(`imapclass(host=..., port=...)`) raises `OSError` on network failure; the
STARTTLS upgrade and `login` raise `imaplib.IMAP4.error` on server
rejection, which is not an `OSError` subclass. -/
def connect (env : ConnEnv) (config : Configuration) : Except PyExc Session :=
  match env.openErr with
  | some msg => .error (.osError msg)
  | none =>
    let client : Session := { debugLevel := if config.debug then 4 else 0 }
    if config.encryption = Encryption.STARTTLS && !env.starttlsOk then
      .error (.imaplibError "STARTTLS rejected")
    else if !env.loginOk then
      .error (.imaplibError "login failed")
    else
      .ok client

/-- The command name and argument of `client._simple_command` in
`wait_for_change` (src lines 140-143). -/
def notifyCmd : String := "NOTIFY SET"

/-- Argument string of the NOTIFY SET command. -/
def notifyArg : String :=
  "(subscribed (FlagChange SubscriptionChange MessageNew MessageExpunge))"

/-- The select timeout of `wait_for_change` (src line 144): `60 * 15`. -/
def selectTimeout : Nat := 60 * 15

/-- Observable events of one run of `wait_for_change`, in order. -/
inductive Event where
  | sleep (seconds : Nat)
  | printErr (msg : String)
  | printOut (msg : String)
  | notify (cmd arg : String)
  | selectWait (timeout : Nat)
  deriving DecidableEq, Repr

/-- How a run of `wait_for_change` on a finite attempt trace ends:
`done finalBackoff changed` after a completed wait cycle (`break`),
`raised e` when an uncaught exception propagates out of the loop, and
`pending backoff` when the trace is exhausted while the loop would sleep
`backoff` seconds and attempt again. -/
inductive LoopResult where
  | done (finalBackoff : Nat) (changed : Bool)
  | raised (e : PyExc)
  | pending (backoff : Nat)
  deriving DecidableEq, Repr

/-- The backoff update of src line 132: `min(120, 2 * max(1, backoff))`. -/
def backoffStep (b : Nat) : Nat := min 120 (2 * max 1 b)

/-- The backoff value before the k-th connection attempt of a run whose
attempts all fail with `OSError`: line 125 initialises it to 0 and line 132
updates it after every such failure. -/
def backoffSeq : Nat → Nat
  | 0 => 0
  | n + 1 => backoffStep (backoffSeq n)

/-- The stderr message of src lines 133-136 (the f-string braces expanded). -/
def retryMessage (e : PyExc) (backoff : Nat) : String :=
  let errMsg := match e with
    | .osError m => m
    | .imaplibError m => m
    | .imapError m => m
    | .configError m => m
    | .nameError m => m
  "Could not connect to server: " ++ errMsg ++ ". Retry in " ++ toString backoff ++ " sec"

/-- The body of `wait_for_change` (src lines 127-149) folded over a finite
trace of attempts.  Each trace element is the network environment of one
`connect` call paired with what `select` would report for that attempt
(`true` = the socket becomes readable within the timeout, i.e.
`len(rlist) != 0`).  Every iteration first sleeps `backoff` seconds
(line 128).  `except OSError` (line 131) catches exactly the OSError class:
it recomputes the backoff, prints to stderr and continues; any other
exception propagates (`raised`).  On a successful `connect` the source sets
`backoff = 0` (line 138), prints "connected", issues NOTIFY SET, selects
with `selectTimeout`, prints the outcome and breaks, ignoring the rest of
the trace. -/
def wait_for_change_aux (config : Configuration) (backoff : Nat) :
    List (ConnEnv × Bool) → List Event × LoopResult
  | [] => ([], .pending backoff)
  | (env, readable) :: rest =>
    match connect env config with
    | .error e =>
      if isOSErrorClass e then
        let b := backoffStep backoff
        let res := wait_for_change_aux config b rest
        (Event.sleep backoff :: Event.printErr (retryMessage e b) :: res.1, res.2)
      else
        ([Event.sleep backoff], .raised e)
    | .ok _ =>
      let newBackoff := 0
      ([Event.sleep backoff, Event.printOut "connected",
        Event.notify notifyCmd notifyArg, Event.selectWait selectTimeout,
        Event.printOut (if readable then "Got change" else "Timeout")],
       .done newBackoff readable)

/-- `wait_for_change` (src lines 124-149): backoff starts at 0. -/
def wait_for_change (config : Configuration)
    (trace : List (ConnEnv × Bool)) : List Event × LoopResult :=
  wait_for_change_aux config 0 trace

/-- The sleep durations among a list of events, in order. -/
def sleepVals : List Event → List Nat
  | [] => []
  | Event.sleep b :: rest => b :: sleepVals rest
  | Event.printErr _ :: rest => sleepVals rest
  | Event.printOut _ :: rest => sleepVals rest
  | Event.notify _ _ :: rest => sleepVals rest
  | Event.selectWait _ :: rest => sleepVals rest

/-- Output channels of the process. -/
inductive OutStream where
  | stdout
  | stderr
  deriving DecidableEq, Repr

/-- How a process run ends, as far as `main` (src lines 152-168) is
concerned. -/
inductive MainOutcome where
  | exited (code : Nat) (stream : OutStream) (msg : String)
  | uncaught (e : PyExc)
  | finished (events : List Event)
  deriving DecidableEq, Repr

/-- `main` (src lines 152-168), after the configuration path has been
chosen.  `except ConfigError` catches exactly the ConfigError class and
then `print(f"Error reading configuration: ...")` writes to standard
output (no `file=` argument) before `sys.exit(1)`.  Any other exception —
from `read_configuration` or out of `wait_for_change` — is uncaught: the
interpreter terminates the process. -/
def main_model (sec? : Option SectionS) (run : String → Int × String)
    (trace : List (ConnEnv × Bool)) : MainOutcome :=
  match read_configuration sec? run with
  | .error e =>
    if isConfigErrorClass e then
      .exited 1 OutStream.stdout ("Error reading configuration: " ++
        (match e with
         | .osError m => m | .imaplibError m => m | .imapError m => m
         | .configError m => m | .nameError m => m))
    else
      .uncaught e
  | .ok config =>
    match wait_for_change config trace with
    | (_, .raised e) => .uncaught e
    | (events, _) => .finished events

/-- The events the retry loop emits for `n` consecutive attempts that all
fail with `OSError msg`, starting from backoff value `b`: each attempt
sleeps the current backoff, then prints the retry message with the updated
backoff. -/
def retryEvents (msg : String) : Nat → Nat → List Event
  | 0, _ => []
  | n + 1, b =>
    Event.sleep b ::
      Event.printErr (retryMessage (.osError msg) (backoffStep b)) ::
        retryEvents msg n (backoffStep b)

/-- `n`-fold application of `backoffStep` starting from `b`. -/
def backoffFrom (b : Nat) : Nat → Nat
  | 0 => b
  | n + 1 => backoffFrom (backoffStep b) n

/-- A fixed valid configuration used to instantiate loop theorems. -/
def cfg0 : Configuration :=
  { host := "mail.example.com", port := 143, username := "alice",
    password := "secret", encryption := Encryption.NONE, debug := false }

lemma backoffFrom_succ (b : Nat) (n : Nat) :
    backoffFrom b (n + 1) = backoffStep (backoffFrom b n) := by
  induction n generalizing b with
  | zero => rfl
  | succ n ih => rw [show backoffFrom b (n + 1 + 1) = backoffFrom (backoffStep b) (n + 1) from rfl, ih, backoffFrom]

lemma backoffFrom_zero_eq (n : Nat) : backoffFrom 0 n = backoffSeq n := by
  induction n with
  | zero => rfl
  | succ n ih => rw [backoffFrom_succ, ih, backoffSeq]

lemma sleepVals_append (l₁ l₂ : List Event) :
    sleepVals (l₁ ++ l₂) = sleepVals l₁ ++ sleepVals l₂ := by
  induction l₁ with
  | nil => rfl
  | cons e rest ih => cases e <;> simp [sleepVals, ih]

lemma sleepVals_retryEvents (msg : String) (n b : Nat) :
    sleepVals (retryEvents msg n b) = (List.range n).map (backoffFrom b) := by
  induction n generalizing b with
  | zero => rfl
  | succ n ih =>
    rw [retryEvents, sleepVals, sleepVals, ih, List.range_succ_eq_map]
    simp only [List.map_cons, List.map_map]
    exact congrArg (b :: ·) (List.map_congr_left fun k _ => rfl)

lemma wait_aux_osError_trace (cfg : Configuration) (msg : String) (n : Nat) :
    ∀ (b : Nat) (rest : List (ConnEnv × Bool)),
      wait_for_change_aux cfg b
          (List.replicate n (({ openErr := some msg } : ConnEnv), false) ++ rest) =
        (retryEvents msg n b ++ (wait_for_change_aux cfg (backoffFrom b n) rest).1,
         (wait_for_change_aux cfg (backoffFrom b n) rest).2) := by
  induction n with
  | zero => intro b rest; simp [retryEvents, backoffFrom]
  | succ n ih =>
    intro b rest
    rw [List.replicate_succ, List.cons_append]
    show (Event.sleep b :: Event.printErr _ ::
        (wait_for_change_aux cfg (backoffStep b) _).1,
      (wait_for_change_aux cfg (backoffStep b) _).2) = _
    rw [ih (backoffStep b) rest, retryEvents]
    rfl

/-- C3: encryption resolution reads `imaps` (default false) and `starttls`
(default: the negation of `imaps`); both true fails with ImapError;
otherwise the mode is IMPLICIT_TLS (`IMAPS`) if `imaps`, else STARTTLS if
`starttls`, else NONE — and the selected mode is unique for every valid
configuration. -/
theorem get_encryption_resolution (sec : SectionS) :
    (sec.imaps.getD false = true →
      sec.starttls.getD (!(sec.imaps.getD false)) = true →
      get_encryption sec =
        .error (.imapError "You cannot enable both starttls and imaps")) ∧
    (¬(sec.imaps.getD false = true ∧
        sec.starttls.getD (!(sec.imaps.getD false)) = true) →
      get_encryption sec =
        .ok (if sec.imaps.getD false then Encryption.IMAPS
             else if sec.starttls.getD (!(sec.imaps.getD false)) then
               Encryption.STARTTLS
             else Encryption.NONE)) ∧
    (∀ m₁ m₂ : Encryption, get_encryption sec = .ok m₁ →
      get_encryption sec = .ok m₂ → m₁ = m₂) := by
  refine ⟨?_, ?_, ?_⟩
  · intro hi hs
    rw [hi] at hs
    simp only [Bool.not_true] at hs
    simp [get_encryption, hi, hs]
  · intro h
    cases hi : sec.imaps.getD false with
    | true =>
      rw [hi] at h
      simp only [Bool.not_true] at h
      have hs : sec.starttls.getD false = false := by
        cases hsb : sec.starttls.getD false
        · rfl
        · exact absurd (by simp [hsb]) h
      simp [get_encryption, hi, hs]
    | false =>
      cases hs : sec.starttls.getD true <;>
        simp [get_encryption, hi, hs]
  · intro m₁ m₂ h₁ h₂
    rw [h₁] at h₂
    exact (Except.ok.injEq _ _).mp h₂

/-- Witness for C3: with both flags set true, resolution fails with the
ImapError. -/
theorem get_encryption_resolution_witness :
    get_encryption { imaps := some true, starttls := some true } =
      .error (.imapError "You cannot enable both starttls and imaps") :=
  (get_encryption_resolution
    { imaps := some true, starttls := some true }).1 (by decide) (by decide)

/-- C4: for a configured port whose string parses to the integer `p`, port
resolution succeeds exactly when `1 ≤ p ≤ 65534`, and then returns `p`; at
the boundaries, a configured "0" fails, "65534" succeeds and "65535"
fails. -/
theorem get_port_range (sec : SectionS) (s : String) (p d : Int)
    (hs : sec.port = some s) (hp : parsePyInt s = some p) :
    ((∃ q, get_port sec d = Except.ok q) ↔ 1 ≤ p ∧ p ≤ 65534) ∧
    (1 ≤ p → p ≤ 65534 → get_port sec d = Except.ok p) ∧
    get_port { port := some "0" } 143 =
      .error (.imapError "Imap port is out of range (1-65535): 0") ∧
    get_port { port := some "65534" } 143 = Except.ok 65534 ∧
    get_port { port := some "65535" } 143 =
      .error (.imapError "Imap port is out of range (1-65535): 65535") := by
  have hlt : p < 65535 ↔ p ≤ 65534 := by omega
  refine ⟨?_, ?_, by decide, by decide, by decide⟩
  · simp only [get_port, hs, Option.getD_some, hp]
    constructor
    · intro ⟨q, hq⟩
      by_cases hr : 1 ≤ p ∧ p < 65535
      · exact ⟨hr.1, hlt.mp hr.2⟩
      · rw [if_neg hr] at hq
        exact absurd hq (by simp)
    · intro ⟨h₁, h₂⟩
      exact ⟨p, by rw [if_pos ⟨h₁, hlt.mpr h₂⟩]⟩
  · intro h₁ h₂
    simp only [get_port, hs, Option.getD_some, hp]
    rw [if_pos ⟨h₁, hlt.mpr h₂⟩]

/-- Witness for C4: the boundary port 65534 resolves successfully. -/
theorem get_port_range_witness :
    get_port { port := some "65534" } 143 = Except.ok 65534 :=
  (get_port_range { port := some "65534" } "65534" 65534 143 rfl
    (by decide)).2.1 (by decide) (by decide)

/-- C5 (code bug): when the configured port is not a valid integer string,
`int(raw_port)` raises ValueError and the handler at src line 78 evaluates
`f"Imap port is not a valid: \x7bport\x7d: \x7berr\x7d"` with the local
`port` unbound — so the function raises UnboundLocalError, not the intended
ImapError/ConfigError. -/
theorem get_port_invalid_not_imap_error :
    get_port { port := some "abc" } 143 =
      .error (.nameError
        "UnboundLocalError: local variable port referenced before assignment") ∧
    (∀ m : String, get_port { port := some "abc" } 143 ≠ .error (.imapError m)) ∧
    (∀ m : String, get_port { port := some "abc" } 143 ≠ .error (.configError m)) := by
  refine ⟨by decide, ?_, ?_⟩ <;>
    · intro m h
      rw [show get_port { port := some "abc" } 143 =
            .error (.nameError
              "UnboundLocalError: local variable port referenced before assignment")
          from by decide] at h
      simp at h

/-- C6: secret resolution fails with ConfigError when both `password` and
`password_command` are set (truthy), fails with ConfigError when neither is
set, and with only the command set it fails with a ConfigError whose
message ends in the exit code when the subprocess exits non-zero, otherwise
returns the captured stdout with trailing whitespace stripped. -/
theorem get_password_resolution (sec : SectionS) (run : String → Int × String) :
    (truthy sec.password = true → truthy sec.password_command = true →
      get_password sec run =
        .error (.configError "password or password_command are mutually exclusive")) ∧
    (sec.password = none → sec.password_command = none →
      get_password sec run =
        .error (.configError "No imap password or password_command set")) ∧
    (∀ c : String, sec.password = none → sec.password_command = some c → c ≠ "" →
      ((run c).1 ≠ 0 →
        get_password sec run = .error (.configError
          ("Password command " ++ c ++ " exited with " ++ toString (run c).1))) ∧
      ((run c).1 = 0 → get_password sec run = .ok (rstrip (run c).2))) := by
  refine ⟨?_, ?_, ?_⟩
  · intro hp hc
    simp [get_password, hp, hc]
  · intro hp hc
    simp [get_password, hp, hc, truthy]
  · intro c hp hc hne
    constructor
    · intro hrc
      simp [get_password, truthy, hp, hc, hne, hrc]
    · intro hrc
      simp [get_password, truthy, hp, hc, hne, hrc]

/-- Witness for C6: a command-only section whose command exits with code 3
yields the ConfigError naming that exit code. -/
theorem get_password_resolution_witness :
    get_password { password_command := some "false" } (fun _ => (3, "")) =
      .error (.configError "Password command false exited with 3") :=
  ((get_password_resolution { password_command := some "false" }
      (fun _ => (3, ""))).2.2 "false" rfl rfl (by decide)).1 (by decide)

lemma exitcode_msg_ne_mutual (c x y : String) :
    "Password command " ++ c ++ x ++ y ≠
      "password or password_command are mutually exclusive" := by
  intro h
  have h₂ := congrArg (fun s => s.data.head?) h
  simp only [String.data_append, List.head?_append] at h₂
  rw [show ("Password command ").data.head? = some 'P' from by decide] at h₂
  have h₃ : (some 'P' : Option Char) =
      ("password or password_command are mutually exclusive").data.head? := h₂
  exact absurd h₃ (by decide)

/-- C10: presence of the secret fields is tested by Python truthiness, not
key presence: with `password` set to the empty string and a non-empty
`password_command`, resolution takes the command path (no mutual-exclusion
error) and uses the command output; with an empty `password` and no
command, it fails as if no secret were configured. -/
theorem get_password_truthiness (sec : SectionS) (run : String → Int × String)
    (c : String) (hp : sec.password = some "") (hc : sec.password_command = some c)
    (hne : c ≠ "") :
    get_password sec run ≠
      .error (.configError "password or password_command are mutually exclusive") ∧
    ((run c).1 = 0 → get_password sec run = .ok (rstrip (run c).2)) ∧
    ((run c).1 ≠ 0 → get_password sec run = .error (.configError
      ("Password command " ++ c ++ " exited with " ++ toString (run c).1))) ∧
    (∀ sec₂ : SectionS, sec₂.password = some "" → sec₂.password_command = none →
      get_password sec₂ run =
        .error (.configError "No imap password or password_command set")) := by
  have hres0 : (run c).1 = 0 → get_password sec run = .ok (rstrip (run c).2) := by
    intro hrc
    simp [get_password, truthy, hp, hc, hne, hrc]
  have hres1 : (run c).1 ≠ 0 → get_password sec run = .error (.configError
      ("Password command " ++ c ++ " exited with " ++ toString (run c).1)) := by
    intro hrc
    simp [get_password, truthy, hp, hc, hne, hrc]
  refine ⟨?_, hres0, hres1, ?_⟩
  · by_cases hrc : (run c).1 = 0
    · rw [hres0 hrc]
      simp
    · rw [hres1 hrc]
      intro h
      simp only [Except.error.injEq, PyExc.configError.injEq] at h
      exact exitcode_msg_ne_mutual c " exited with " (toString (run c).1) h
  · intro sec₂ hp₂ hc₂
    simp [get_password, truthy, hp₂, hc₂]

/-- Witness for C10: empty `password` together with a command does not hit
the mutual-exclusion error and returns the stripped command output. -/
theorem get_password_truthiness_witness :
    get_password { password := some "", password_command := some "cat secretfile" }
        (fun _ => (0, "hunter2\n")) = .ok (rstrip "hunter2\n") :=
  (get_password_truthiness
    { password := some "", password_command := some "cat secretfile" }
    (fun _ => (0, "hunter2\n")) "cat secretfile" rfl rfl (by decide)).2.1 (by decide)

lemma get_port_default (sec : SectionS) (hport : sec.port = none) :
    get_port sec 993 = Except.ok 993 ∧ get_port sec 143 = Except.ok 143 := by
  constructor <;> simp [get_port, hport] <;> decide

/-- C9: when the port field is absent, the resolved configuration carries
port 993 under IMPLICIT_TLS (`IMAPS`) and port 143 under STARTTLS or
NONE. -/
theorem read_configuration_default_port (sec : SectionS)
    (run : String → Int × String) (cfg : Configuration)
    (hport : sec.port = none)
    (hok : read_configuration (some sec) run = Except.ok cfg) :
    cfg.port = if cfg.encryption = Encryption.IMAPS then 993 else 143 := by
  simp only [read_configuration] at hok
  by_cases hh : truthy sec.host = true
  case neg => simp [hh] at hok
  rw [if_neg (by simp [hh])] at hok
  by_cases hu : truthy sec.username = true
  case neg => simp [hu] at hok
  rw [if_neg (by simp [hu])] at hok
  cases he : get_encryption sec with
  | error e => rw [he] at hok; exact absurd hok (by simp)
  | ok enc =>
    rw [he] at hok
    dsimp only at hok
    have hgp : get_port sec (if enc = Encryption.IMAPS then 993 else 143) =
        Except.ok (if enc = Encryption.IMAPS then 993 else 143) := by
      by_cases hi : enc = Encryption.IMAPS <;>
        simp [hi, (get_port_default sec hport).1, (get_port_default sec hport).2]
    rw [hgp] at hok
    dsimp only at hok
    cases hpw : get_password sec run with
    | error e => rw [hpw] at hok; exact absurd hok (by simp)
    | ok pw =>
      rw [hpw] at hok
      dsimp only at hok
      have hcfg := (Except.ok.injEq _ _).mp hok
      rw [← hcfg]

/-- Witness for C9: an `imaps=true` section with no port resolves to port
993. -/
theorem read_configuration_default_port_witness :
    ({ host := "h", port := 993, username := "u", password := "p",
       encryption := Encryption.IMAPS, debug := false } : Configuration).port =
      if ({ host := "h", port := 993, username := "u", password := "p",
            encryption := Encryption.IMAPS, debug := false } : Configuration).encryption =
          Encryption.IMAPS then 993 else 143 :=
  read_configuration_default_port
    { host := some "h", username := some "u", password := some "p", imaps := some true }
    (fun _ => (0, "")) _ rfl (by decide)

/-- C1: the backoff starts at 0 and each consecutive OSError-class
connection failure updates it by `min(120, 2 * max(1, backoff))`, giving
the sequence 0, 2, 4, 8, 16, 32, 64, 120, 120, …; the loop sleeps exactly
the current backoff before each attempt (0 on the first), and a successful
connection resets the backoff to 0. -/
theorem backoff_schedule (cfg : Configuration) (msg : String) (n : Nat) (r : Bool) :
    (∀ k, backoffSeq (k + 1) = min 120 (2 * max 1 (backoffSeq k))) ∧
    (List.range 8).map backoffSeq = [0, 2, 4, 8, 16, 32, 64, 120] ∧
    (∀ k, backoffSeq (k + 7) = 120) ∧
    wait_for_change cfg
        (List.replicate n (({ openErr := some msg } : ConnEnv), false) ++
          [(({} : ConnEnv), r)]) =
      (retryEvents msg n 0 ++
        [Event.sleep (backoffSeq n), Event.printOut "connected",
         Event.notify notifyCmd notifyArg, Event.selectWait selectTimeout,
         Event.printOut (if r then "Got change" else "Timeout")],
       LoopResult.done 0 r) ∧
    sleepVals (wait_for_change cfg
        (List.replicate n (({ openErr := some msg } : ConnEnv), false) ++
          [(({} : ConnEnv), r)])).1 =
      (List.range (n + 1)).map backoffSeq := by
  have hconn : connect ({} : ConnEnv) cfg = Except.ok { debugLevel := if cfg.debug then 4 else 0 } := by
    simp [connect]
  have hsucc : ∀ b, wait_for_change_aux cfg b [(({} : ConnEnv), r)] =
      ([Event.sleep b, Event.printOut "connected",
        Event.notify notifyCmd notifyArg, Event.selectWait selectTimeout,
        Event.printOut (if r then "Got change" else "Timeout")],
       LoopResult.done 0 r) := by
    intro b
    simp only [wait_for_change_aux, hconn]
  have hloop := wait_aux_osError_trace cfg msg n 0 [(({} : ConnEnv), r)]
  rw [backoffFrom_zero_eq, hsucc (backoffSeq n)] at hloop
  have hmain : wait_for_change cfg
      (List.replicate n (({ openErr := some msg } : ConnEnv), false) ++
        [(({} : ConnEnv), r)]) =
      (retryEvents msg n 0 ++
        [Event.sleep (backoffSeq n), Event.printOut "connected",
         Event.notify notifyCmd notifyArg, Event.selectWait selectTimeout,
         Event.printOut (if r then "Got change" else "Timeout")],
       LoopResult.done 0 r) := hloop
  have hseq120 : ∀ k, backoffSeq (k + 7) = 120 := by
    intro k
    induction k with
    | zero => decide
    | succ k ih =>
      show backoffStep (backoffSeq (k + 7)) = 120
      rw [ih]
      decide
  refine ⟨fun k => rfl, by decide, hseq120, hmain, ?_⟩
  rw [hmain]
  simp only [sleepVals_append, sleepVals_retryEvents, sleepVals, List.range_succ,
    List.map_append, List.map_cons, List.map_nil, backoffFrom_zero_eq]
  exact congrArg (· ++ [backoffSeq n])
    (List.map_congr_left fun k _ => backoffFrom_zero_eq k)

/-- Witness for C1: two refused connections followed by a success give
sleeps 0, 2, 4, retry logs with backoffs 2 and 4, and a final reset to
0. -/
theorem backoff_schedule_witness :
    wait_for_change cfg0
        (List.replicate 2 (({ openErr := some "refused" } : ConnEnv), false) ++
          [(({} : ConnEnv), true)]) =
      (retryEvents "refused" 2 0 ++
        [Event.sleep (backoffSeq 2), Event.printOut "connected",
         Event.notify notifyCmd notifyArg, Event.selectWait selectTimeout,
         Event.printOut (if true then "Got change" else "Timeout")],
       LoopResult.done 0 true) :=
  (backoff_schedule cfg0 "refused" 2 true).2.2.2.1

/-- C2: during connection establishment, exactly the OSError-class
failures are caught and retried with backoff; every non-OSError failure
(for example an authentication rejection, raised as `imaplib.IMAP4.error`,
which is not an OSError subclass) propagates out of the loop, and — being
uncaught in `main` — terminates the process. -/
theorem oserror_asymmetry (cfg : Configuration) (b : Nat) (env : ConnEnv)
    (readable : Bool) (rest : List (ConnEnv × Bool)) :
    (∀ e, connect env cfg = .error e → isOSErrorClass e = true →
      wait_for_change_aux cfg b ((env, readable) :: rest) =
        (Event.sleep b :: Event.printErr (retryMessage e (backoffStep b)) ::
          (wait_for_change_aux cfg (backoffStep b) rest).1,
         (wait_for_change_aux cfg (backoffStep b) rest).2)) ∧
    (∀ e, connect env cfg = .error e → isOSErrorClass e = false →
      wait_for_change_aux cfg b ((env, readable) :: rest) =
        ([Event.sleep b], LoopResult.raised e)) ∧
    (env.openErr = none → env.loginOk = false →
      (cfg.encryption = Encryption.STARTTLS → env.starttlsOk = true) →
      connect env cfg = .error (.imaplibError "login failed") ∧
      isOSErrorClass (.imaplibError "login failed") = false) ∧
    (∀ e sec? run, read_configuration sec? run = Except.ok cfg →
      connect env cfg = .error e → isOSErrorClass e = false →
      main_model sec? run ((env, readable) :: rest) = MainOutcome.uncaught e) := by
  have hcatch : ∀ e, connect env cfg = .error e → isOSErrorClass e = true →
      wait_for_change_aux cfg b ((env, readable) :: rest) =
        (Event.sleep b :: Event.printErr (retryMessage e (backoffStep b)) ::
          (wait_for_change_aux cfg (backoffStep b) rest).1,
         (wait_for_change_aux cfg (backoffStep b) rest).2) := by
    intro e hc hos
    simp only [wait_for_change_aux, hc, hos, if_true]
  have hprop : ∀ e, connect env cfg = .error e → isOSErrorClass e = false →
      wait_for_change_aux cfg b ((env, readable) :: rest) =
        ([Event.sleep b], LoopResult.raised e) := by
    intro e hc hos
    simp only [wait_for_change_aux, hc, hos, Bool.false_eq_true, if_false]
  refine ⟨hcatch, hprop, ?_, ?_⟩
  · intro hopen hlogin hstls
    constructor
    · by_cases hmode : cfg.encryption = Encryption.STARTTLS
      · simp [connect, hopen, hlogin, hmode, hstls hmode]
      · simp [connect, hopen, hlogin, hmode]
    · rfl
  · intro e sec? run hcfg hc hos
    have hb := hprop e hc hos
    -- wait_for_change starts at backoff 0; specialise to b = 0
    simp only [main_model, hcfg, wait_for_change]
    have hb0 : wait_for_change_aux cfg 0 ((env, readable) :: rest) =
        ([Event.sleep 0], LoopResult.raised e) := by
      simp only [wait_for_change_aux, hc, hos, Bool.false_eq_true, if_false]
    rw [hb0]

/-- Witness for C2: a rejected login is raised as an imaplib error, is not
caught by the OSError handler, and propagates out of the loop. -/
theorem oserror_asymmetry_witness :
    wait_for_change_aux cfg0 0
        [(({ loginOk := false } : ConnEnv), false)] =
      ([Event.sleep 0], LoopResult.raised (.imaplibError "login failed")) :=
  (oserror_asymmetry cfg0 0 { loginOk := false } false []).2.1
    (.imaplibError "login failed") (by decide) (by decide)

/-- C7: on an established session the watcher performs one wait cycle:
it waits on the socket with a timeout of exactly `selectTimeout = 900`
seconds, prints "Got change" when the socket becomes readable and
"Timeout" otherwise, and the loop then terminates (`done`) without
consuming any further connection attempts. -/
theorem single_wait_cycle (cfg : Configuration) (b : Nat) (env : ConnEnv)
    (readable : Bool) (rest : List (ConnEnv × Bool)) (s : Session)
    (hconn : connect env cfg = Except.ok s) :
    selectTimeout = 900 ∧
    wait_for_change_aux cfg b ((env, readable) :: rest) =
      ([Event.sleep b, Event.printOut "connected",
        Event.notify notifyCmd notifyArg, Event.selectWait selectTimeout,
        Event.printOut (if readable then "Got change" else "Timeout")],
       LoopResult.done 0 readable) := by
  refine ⟨rfl, ?_⟩
  simp only [wait_for_change_aux, hconn]

/-- Witness for C7: a successful first attempt with a readable socket
reports the change and ends the loop. -/
theorem single_wait_cycle_witness :
    wait_for_change_aux cfg0 0 [(({} : ConnEnv), true)] =
      ([Event.sleep 0, Event.printOut "connected",
        Event.notify notifyCmd notifyArg, Event.selectWait selectTimeout,
        Event.printOut (if true then "Got change" else "Timeout")],
       LoopResult.done 0 true) :=
  (single_wait_cycle cfg0 0 {} true [] { debugLevel := 0 } (by decide)).2

/-- C8 counterexample: on a section with no host, `main` exits with code 1
but prints the configuration error to standard output (the bare `print`
call of src line 165 has no `file=sys.stderr`), not to standard error as
the claim states. -/
theorem config_error_stream_counterexample :
    main_model (some ({ host := none } : SectionS)) (fun _ => (0, "")) [] =
      MainOutcome.exited 1 OutStream.stdout
        "Error reading configuration: No imap host set" ∧
    OutStream.stdout ≠ OutStream.stderr := by
  constructor
  · decide
  · decide

/-- C8 amended: for every ConfigError raised while reading the
configuration, the process exits with exit code 1 and the error message is
printed to standard output. -/
theorem config_error_exit (sec? : Option SectionS) (run : String → Int × String)
    (trace : List (ConnEnv × Bool)) (m : String)
    (h : read_configuration sec? run = .error (.configError m)) :
    main_model sec? run trace =
      MainOutcome.exited 1 OutStream.stdout ("Error reading configuration: " ++ m) := by
  simp only [main_model, h, isConfigErrorClass, if_true]

/-- Witness for the amended C8: a missing host exits with code 1 and the
message on standard output. -/
theorem config_error_exit_witness :
    main_model (some ({ host := none } : SectionS)) (fun _ => (0, "")) [] =
      MainOutcome.exited 1 OutStream.stdout
        ("Error reading configuration: " ++ "No imap host set") :=
  config_error_exit (some { host := none }) (fun _ => (0, "")) []
    "No imap host set" (by decide)

end ImapNotify
